import Mathlib

/-!
Shallow embedding of `redisds.py`: Redis-backed list, set and dict adapters
(`RedisList`, `RedisSet`, `RedisDict`).  The remote store is modelled
explicitly (a Redis list as `List PyVal`, a Redis set as `Finset String`,
a Redis hash as an association list); each Python method becomes a Lean
function on that state, returning `Except PyErr _` where the method can
raise.  Runtime errors that the Python code deterministically raises
(undefined attribute or name lookups) are modelled by the corresponding
error kind.
-/

set_option autoImplicit false

namespace RedisDS

/-- Values handled by the adapters: strings (the usual Redis payload),
Python integers, and Python lists (which the buggy `__iadd__` pushes as a
single value). -/
inductive PyVal where
  | str : String → PyVal
  | int : Int → PyVal
  | list : List PyVal → PyVal

/-- Kinds of Python exceptions the code can raise. -/
inductive PyErr where
  | typeError
  | indexError
  | keyError
  | valueError
  | notImplementedError
  | attributeError
  | nameError
  deriving DecidableEq, Repr

/-- Python truthiness of a value, as used by `if not val:` in
`RedisList.__getitem__` (the empty byte string is falsy). -/
def pyFalsy : PyVal → Bool
  | .str s => s == ""
  | .int n => n == 0
  | .list l => l.isEmpty

/-! ## Redis list primitives (semantics of LINDEX / LRANGE / LTRIM) -/

/-- Redis LINDEX: negative indices count from the tail; out of range
gives nil (modelled as `none`). -/
def lindex {α : Type} (l : List α) (i : Int) : Option α :=
  let j : Int := if i < 0 then (l.length : Int) + i else i
  if j < 0 then none else l.get? j.toNat

/-- Redis LRANGE key start stop, both ends inclusive: negative offsets
count from the tail, the range is clamped to the list, and an inverted
range yields the empty list. -/
def lrange {α : Type} (l : List α) (start stop : Int) : List α :=
  let n : Int := l.length
  let s := max (if start < 0 then n + start else start) 0
  let e := min (if stop < 0 then n + stop else stop) (n - 1)
  if s ≤ e then (l.drop s.toNat).take (e - s + 1).toNat else []

/-- Redis LTRIM key start stop keeps exactly the LRANGE of the list.
In particular LTRIM key 0 -1 keeps the whole list. -/
def ltrim {α : Type} (l : List α) (start stop : Int) : List α :=
  lrange l start stop

/-! ## Python slicing helpers (list slicing on a materialized list) -/

/-- Python `l[i:]`: negative `i` counts from the end and clamps to 0. -/
def pyDropFrom {α : Type} (l : List α) (i : Int) : List α :=
  if i < 0 then l.drop ((l.length : Int) + i).toNat else l.drop i.toNat

/-- Python `l[0:i]`: negative `i` counts from the end and clamps to 0. -/
def pyTake {α : Type} (l : List α) (i : Int) : List α :=
  if i < 0 then l.take ((l.length : Int) + i).toNat else l.take i.toNat

/-! ## RedisList -/

/-- `RedisList.insert(i, v)` (src/redisds.py:179-190): materialize the
list (`full_list = list(self)`), keep the tail `full_list[i:]`, issue
`LTRIM key 0 i-1`, RPUSH `v`, then RPUSH the saved tail.  None of these
steps raises for an integer `i`, so the bare `except` branch is dead on
this path; the resulting remote contents are returned. -/
def RedisList.insert (l : List PyVal) (i : Int) (v : PyVal) : List PyVal :=
  let post := pyDropFrom l i
  let trimmed := ltrim l 0 (i - 1)
  trimmed ++ [v] ++ post

/-- `RedisList.sliced` (src/redisds.py:59-65): any explicit slice step,
including `1`, triggers `raise NotImplementedError`; with no step the
method returns `LRANGE key start stop`. -/
def RedisList.sliced (l : List PyVal) (start stop : Int) (step : Option Int) :
    Except PyErr (List PyVal) :=
  match step with
  | some _ => .error .notImplementedError
  | none => .ok (lrange l start stop)

/-- `RedisList.__getitem__` with an integer index (src/redisds.py:67-72):
`val = LINDEX key i`; `if not val: raise IndexError` — so both a missing
element (`None`) and a present but falsy element (the empty string) raise;
otherwise the decoded value is returned. -/
def RedisList.getitem (l : List PyVal) (i : Int) : Except PyErr PyVal :=
  match lindex l i with
  | none => .error .indexError
  | some v => if pyFalsy v then .error .indexError else .ok v

/-- The value a Python method call evaluates to: `MethodRet.none` when the
body falls off the end (implicit `return None`), `MethodRet.self` if it
were to return the receiver view. -/
inductive MethodRet where
  | none : MethodRet
  | self : MethodRet
  deriving DecidableEq, Repr

/-- `isinstance(v, Iterable)`: strings and lists are iterable, integers
are not. -/
def pyIterable : PyVal → Bool
  | .str _ => true
  | .list _ => true
  | .int _ => false

/-- Python `list(v)` for an iterable `v`: a list stays itself, a string
becomes the list of its one-character strings.  (The non-iterable case is
unreachable behind the `raise_if_of_type` guard.) -/
def toPyList : PyVal → List PyVal
  | .list l => l
  | .str s => s.toList.map (fun c => PyVal.str (String.mk [c]))
  | v => [v]

/-- `RedisList.__iadd__` (src/redisds.py:96-103): `raise_if_of_type`
raises TypeError when the operand is NOT an instance of `Iterable`
(despite its name); the operand is converted with `list(...)` if needed;
then the code calls `self.append(new_list)`, which is
`RPUSH key new_list` — the whole operand list is pushed as ONE value
instead of being unpacked element by element.  The body has no `return`,
so the method evaluates to `None`. -/
def RedisList.iadd (l : List PyVal) (operand : PyVal) :
    Except PyErr (MethodRet × List PyVal) :=
  if pyIterable operand then
    .ok (.none, l ++ [PyVal.list (toPyList operand)])
  else .error .typeError

/-- `k` successive executions of `self.extend(current)` where `current`
aliases `self`: each call materializes the current contents and re-pushes
them, doubling the list. -/
def iterDouble : Nat → List PyVal → List PyVal
  | 0, l => l
  | k + 1, l => iterDouble k (l ++ l)

/-- `RedisList.__imul__` (src/redisds.py:105-117): TypeError unless the
operand is an integer `n`; `n < 1` deletes the key; `n > 1` runs
`self.extend(current)` `n - 1` times where `current = self` is an alias,
so each pass doubles the remote list.  The body has no `return`, so the
method evaluates to `None`. -/
def RedisList.imul (l : List PyVal) (operand : PyVal) :
    Except PyErr (MethodRet × List PyVal) :=
  match operand with
  | .int n =>
    let l1 := if n < 1 then [] else l
    let l2 := if n > 1 then iterDouble (n - 1).toNat l1 else l1
    .ok (.none, l2)
  | _ => .error .typeError

/-! ## RedisSet

The store maps keys to Redis sets; a key that was never written holds the
empty set. -/

/-- The remote store for the set adapter: key to set of members. -/
abbrev Store := List (String × Finset String)

/-- Contents of a key (a missing key reads as the empty set). -/
def Store.lookup (st : Store) (k : String) : Finset String :=
  match st.find? (fun p => p.1 == k) with
  | some p => p.2
  | none => ∅

/-- A Python object passed as an operand to a `RedisSet` method: another
`RedisSet` view (identified by its remote key), a plain Python list, or
an integer. -/
inductive PyObj where
  | rset : String → PyObj
  | plist : List String → PyObj
  | pint : Int → PyObj

/-- The silent operand filter shared by `union`, `intersection` and
`difference` (e.g. src/redisds.py:297):
`[o.key for o in others if isinstance(o, cls)]` keeps the keys of the
same-type operands and drops every incompatible operand without raising. -/
def filterSetKeys (others : List PyObj) : List String :=
  others.filterMap (fun o => match o with | .rset k => some k | _ => none)

/-- `RedisSet.union` (src/redisds.py:295-301): after silently filtering
the operands, the code evaluates `cls(self.con, key)`; `RedisDSBase`
stores the connection under `self.c`, so the attribute lookup `self.con`
raises AttributeError before any store command runs (and even with the
attribute fixed, the fresh `uuid.uuid1().int` key is an `int`, which
`RedisDSBase.__init__` rejects with TypeError).  The store is returned
unchanged together with the raised error kind. -/
def RedisSet.union (st : Store) (selfKey : String) (others : List PyObj) :
    Store × Except PyErr String :=
  let _otherKeys := filterSetKeys others
  let _ := selfKey
  (st, .error .attributeError)

/-- `RedisSet.intersection` (src/redisds.py:247-253): same shape as
`union` — silent operand filter, then `cls(self.con, key)` raises
AttributeError before `SINTERSTORE` is reached; the store is unchanged. -/
def RedisSet.intersection (st : Store) (selfKey : String) (others : List PyObj) :
    Store × Except PyErr String :=
  let _otherKeys := filterSetKeys others
  let _ := selfKey
  (st, .error .attributeError)

/-- `RedisSet.difference` (src/redisds.py:228-238): same shape as
`union` — silent operand filter, then `cls(self.con, key)` raises
AttributeError before `SDIFFSTORE` is reached; the store is unchanged. -/
def RedisSet.difference (st : Store) (selfKey : String) (others : List PyObj) :
    Store × Except PyErr String :=
  let _otherKeys := filterSetKeys others
  let _ := selfKey
  (st, .error .attributeError)

/-- `RedisSet.difference_update` (src/redisds.py:240-245): after the
silent operand filter, the guard `if not isinstance(other, cls)` reads
the name `other`, which is not defined anywhere in the method or module,
so the call raises NameError before any store command runs. -/
def RedisSet.difference_update (st : Store) (selfKey : String)
    (others : List PyObj) : Store × Except PyErr Unit :=
  let _otherKeys := filterSetKeys others
  let _ := selfKey
  (st, .error .nameError)

/-- Redis SREM on one member: returns the number of removed members
(0 or 1) and the new contents. -/
def srem (s : Finset String) (e : String) : Nat × Finset String :=
  if e ∈ s then (1, s.erase e) else (0, s)

/-- `RedisSet.discard` (src/redisds.py:215-216): issues SREM and ignores
its reply, so it never raises. -/
def RedisSet.discard (s : Finset String) (e : String) :
    Except PyErr (Finset String) :=
  .ok (srem s e).2

/-- `RedisSet.remove` (src/redisds.py:277-280): issues SREM and raises
KeyError when the reply says nothing was removed. -/
def RedisSet.remove (s : Finset String) (e : String) :
    Except PyErr (Finset String) :=
  let r := srem s e
  if r.1 = 0 then .error .keyError else .ok r.2

/-- Python `len(other)` as evaluated inside `RedisSet.__eq__`: SCARD for
a set view, `len` for a list, TypeError for an integer (no `__len__`). -/
def pyLen (st : Store) : PyObj → Except PyErr Nat
  | .rset k => .ok (Store.lookup st k).card
  | .plist l => .ok l.length
  | .pint _ => .error .typeError

/-- Python `set(other)` as evaluated inside `RedisSet.__eq__`: SMEMBERS
for a set view, the element set of a list, TypeError for an integer (not
iterable). -/
def pySetOf (st : Store) : PyObj → Except PyErr (Finset String)
  | .rset k => .ok (Store.lookup st k)
  | .plist l => .ok l.toFinset
  | .pint _ => .error .typeError

/-- `RedisSet.__eq__` (src/redisds.py:319-323): compare `len(self)` with
`len(other)` first, then `set(self)` with `set(other)`; returns a boolean
for any operand on which `len` and `set` succeed, and propagates the
TypeError that `len(other)` raises on an unsized operand. -/
def RedisSet.eq (st : Store) (selfKey : String) (other : PyObj) :
    Except PyErr Bool :=
  match pyLen st other with
  | .error e => .error e
  | .ok n =>
    if (Store.lookup st selfKey).card = n then
      match pySetOf st other with
      | .error e => .error e
      | .ok os => if Store.lookup st selfKey = os then .ok true else .ok false
    else .ok false

/-- `RedisSet.__ne__` (src/redisds.py:325-328): raises TypeError unless
`type(other)` is exactly the same class, then returns `not self == other`. -/
def RedisSet.ne (st : Store) (selfKey : String) (other : PyObj) :
    Except PyErr Bool :=
  match other with
  | .rset k =>
    match RedisSet.eq st selfKey (.rset k) with
    | .ok b => .ok (!b)
    | .error e => .error e
  | _ => .error .typeError

/-! ## RedisDict -/

/-- The remote hash for the mapping adapter: field to value. -/
abbrev Hash := List (String × PyVal)

/-- Redis HGET: nil (modelled as `none`) when the field is absent. -/
def hget (h : Hash) (f : String) : Option PyVal :=
  match h.find? (fun p => p.1 == f) with
  | some p => some p.2
  | none => none

/-- `RedisDict.__getitem__` (src/redisds.py:333-337): returns the HGET
value when present; otherwise executes `raise KeyError(str(key))`, but
`key` is an undefined name in that scope, so evaluating `str(key)` raises
NameError instead of the intended KeyError. -/
def RedisDict.getitem (h : Hash) (f : String) : Except PyErr PyVal :=
  match hget h f with
  | some v => .ok v
  | none => .error .nameError

/-- `RedisDict.get` (src/redisds.py:376-380): delegates to
`self[k]` and catches only KeyError, substituting the default; any other
error kind (in particular the NameError from `__getitem__`) propagates. -/
def RedisDict.get (h : Hash) (f : String) (default : PyVal) :
    Except PyErr PyVal :=
  match RedisDict.getitem h f with
  | .error .keyError => .ok default
  | r => r

/-! Helper lemmas shared by the claim theorems. -/

/-- LINDEX on the empty list is nil for every index. -/
theorem lindex_nil {α : Type} (i : Int) : lindex ([] : List α) i = none := by
  simp only [lindex]
  split <;> first | rfl | (split <;> rfl)

/-- Claim C1: insert(i, v) is claimed to leave the contents equal to
L[0:i] ++ [v] ++ L[i:] for every i, in particular i = 0.  Evaluating the
code at L = ["a"], i = 0, v = "b": LTRIM key 0 -1 keeps the whole list
(Redis negative index), so the result is ["a", "b", "a"], not the
claimed ["b", "a"]. -/
theorem C1_insert_at_index_zero :
    RedisList.insert [PyVal.str "a"] 0 (PyVal.str "b")
      = [PyVal.str "a", PyVal.str "b", PyVal.str "a"] ∧
    RedisList.insert [PyVal.str "a"] 0 (PyVal.str "b")
      ≠ pyTake [PyVal.str "a"] 0 ++ [PyVal.str "b"]
          ++ pyDropFrom [PyVal.str "a"] 0 := by
  have h1 : RedisList.insert [PyVal.str "a"] 0 (PyVal.str "b")
      = [PyVal.str "a", PyVal.str "b", PyVal.str "a"] := rfl
  have h2 : pyTake [PyVal.str "a"] 0 ++ [PyVal.str "b"]
      ++ pyDropFrom [PyVal.str "a"] 0
      = [PyVal.str "b", PyVal.str "a"] := rfl
  refine ⟨h1, ?_⟩
  rw [h1, h2]
  intro h
  exact absurd (congrArg List.length h) (by simp)

/-- Claim C2: the set algebra entry points are claimed to raise a
TypeError-kind error on an incompatible operand.  In the code,
union / intersection / difference silently filter incompatible operands
and then raise AttributeError-kind (undefined attribute `self.con`) on
every call, and difference_update raises NameError-kind (undefined name
`other`); none of them raises TypeError-kind. -/
theorem C2_algebra_ops_error_kinds (st : Store) (k : String)
    (others : List PyObj) :
    (RedisSet.union st k others).2 = .error .attributeError ∧
    (RedisSet.intersection st k others).2 = .error .attributeError ∧
    (RedisSet.difference st k others).2 = .error .attributeError ∧
    (RedisSet.difference_update st k others).2 = .error .nameError ∧
    (RedisSet.union st k others).2 ≠ .error .typeError := by
  refine ⟨rfl, rfl, rfl, rfl, ?_⟩
  intro h
  injection h with h2
  exact PyErr.noConfusion h2

/-- Claim C3: with a = \x7b1,2,3\x7d and b = \x7b2,3,4\x7d, a.intersection(b) is
claimed to yield a new set holding \x7b2,3\x7d.  Evaluating the code: the call
raises AttributeError-kind (undefined attribute `self.con`) before any
store command, never returning a result; the operand keys are left
unmodified. -/
theorem C3_intersection_raises :
    RedisSet.intersection
        [("a", ({"1", "2", "3"} : Finset String)),
         ("b", ({"2", "3", "4"} : Finset String))]
        "a" [PyObj.rset "b"]
      = ([("a", ({"1", "2", "3"} : Finset String)),
          ("b", ({"2", "3", "4"} : Finset String))],
         .error .attributeError) ∧
    ∀ res, (RedisSet.intersection
        [("a", ({"1", "2", "3"} : Finset String)),
         ("b", ({"2", "3", "4"} : Finset String))]
        "a" [PyObj.rset "b"]).2 ≠ .ok res :=
  ⟨rfl, fun _ h => Except.noConfusion h⟩

/-- Claim C4, counterexample: the claim says a slice with step = 1
returns the materialized range, but the code raises whenever a step is
given, including step = 1. -/
theorem C4_counterexample :
    RedisList.sliced [PyVal.str "a", PyVal.str "b"] 0 1 (some 1)
      = .error .notImplementedError ∧
    ∀ res, RedisList.sliced [PyVal.str "a", PyVal.str "b"] 0 1 (some 1)
      ≠ .ok res :=
  ⟨rfl, fun _ h => Except.noConfusion h⟩

/-- Claim C4, amended: sliced returns LRANGE [start, stop] inclusive when
the step is unspecified (None), and raises NotImplementedError-kind
whenever any step is specified, even step = 1. -/
theorem C4_sliced_amended (l : List PyVal) (s e k : Int) :
    RedisList.sliced l s e none = .ok (lrange l s e) ∧
    RedisList.sliced l s e (some k) = .error .notImplementedError :=
  ⟨rfl, rfl⟩

/-- Claim C5: in-place concatenation is claimed to append each operand
element individually, yielding L ++ xs.  Evaluating the code at
L = ["a"], xs = ["b", "c"]: `self.append(new_list)` pushes the operand
as one single value, so the contents become ["a", ["b", "c"]], which
differs from ["a", "b", "c"]; the TypeError-kind on a non-iterable
operand does hold. -/
theorem C5_iadd_appends_whole_operand :
    RedisList.iadd [PyVal.str "a"] (PyVal.list [PyVal.str "b", PyVal.str "c"])
      = .ok (MethodRet.none,
          [PyVal.str "a", PyVal.list [PyVal.str "b", PyVal.str "c"]]) ∧
    [PyVal.str "a", PyVal.list [PyVal.str "b", PyVal.str "c"]]
      ≠ [PyVal.str "a", PyVal.str "b", PyVal.str "c"] ∧
    RedisList.iadd [PyVal.str "a"] (PyVal.int 5) = .error .typeError := by
  refine ⟨rfl, ?_, rfl⟩
  intro h
  exact absurd (congrArg List.length h) (by simp)

/-- Claim C6: get with a default is claimed to return the default on an
absent field by catching the not-found error.  Evaluating the code on an
empty mapping and field "x": `__getitem__` raises NameError-kind (the
name `key` in `raise KeyError(str(key))` is undefined), which the
`except KeyError` in get does not catch, so get("x", default=7) raises
instead of returning 7, and plain item access raises NameError-kind
rather than KeyError-kind. -/
theorem C6_get_default_raises :
    RedisDict.get [] "x" (PyVal.int 7) = .error .nameError ∧
    RedisDict.getitem [] "x" = .error .nameError ∧
    ∀ v, RedisDict.get [] "x" (PyVal.int 7) ≠ .ok v :=
  ⟨rfl, rfl, fun _ h => Except.noConfusion h⟩

/-- Claim C7, counterexample: the claim says get(index) raises iff no
element is present at that index; but on the list [""] the element at
index 0 is present (LINDEX returns it) and get(0) still raises
IndexError-kind, because `if not val:` treats the empty string as
missing. -/
theorem C7_counterexample :
    RedisList.getitem [PyVal.str ""] 0 = .error .indexError ∧
    lindex [PyVal.str ""] 0 = some (PyVal.str "") :=
  ⟨rfl, rfl⟩

/-- Claim C7, amended: get(index) raises IndexError-kind iff the element
at that index is absent or falsy (the empty string); a present non-falsy
element is returned; on the empty sequence every index raises. -/
theorem C7_getitem_amended (l : List PyVal) (i : Int) :
    (RedisList.getitem l i = .error .indexError ↔
      ∀ v, lindex l i = some v → pyFalsy v = true) ∧
    (∀ v, lindex l i = some v → pyFalsy v = false →
      RedisList.getitem l i = .ok v) ∧
    RedisList.getitem ([] : List PyVal) i = .error .indexError := by
  refine ⟨?_, ?_, ?_⟩
  · cases h : lindex l i with
    | none => simp [RedisList.getitem, h]
    | some v =>
      by_cases hf : pyFalsy v = true
      · simp [RedisList.getitem, h, hf]
      · simp [RedisList.getitem, h, hf]
  · intro v h hf
    simp [RedisList.getitem, h, hf]
  · simp [RedisList.getitem, lindex_nil]

/-- Claim C7, witness for the amended theorem at the concrete list ["a"]
and index 0. -/
theorem C7_witness :
    lindex [PyVal.str "a"] 0 = some (PyVal.str "a") ∧
    pyFalsy (PyVal.str "a") = false ∧
    RedisList.getitem [PyVal.str "a"] 0 = .ok (PyVal.str "a") :=
  ⟨rfl, rfl,
   (C7_getitem_amended [PyVal.str "a"] 0).2.1 (PyVal.str "a") rfl rfl⟩

/-- Claim C8: on an absent element, discard is a silent no-op (also when
called twice in a row) while remove raises KeyError-kind. -/
theorem C8_discard_remove_absent (s : Finset String) (e : String)
    (h : e ∉ s) :
    RedisSet.discard s e = .ok s ∧
    (∀ t, RedisSet.discard s e = .ok t → RedisSet.discard t e = .ok t) ∧
    RedisSet.remove s e = .error .keyError := by
  have hs : srem s e = (0, s) := by simp [srem, h]
  refine ⟨?_, ?_, ?_⟩
  · simp [RedisSet.discard, hs]
  · intro t ht
    have hts : t = s := by
      have := ht
      simp [RedisSet.discard, hs] at this
      exact this.symm
    subst hts
    simp [RedisSet.discard, hs]
  · simp [RedisSet.remove, hs]

/-- Claim C8, witness at the empty set and element "x". -/
theorem C8_witness :
    ("x" ∉ (∅ : Finset String)) ∧
    RedisSet.remove (∅ : Finset String) "x" = .error .keyError :=
  ⟨Finset.not_mem_empty _,
   (C8_discard_remove_absent ∅ "x" (Finset.not_mem_empty _)).2.2⟩

/-- Claim C9, counterexample: the claim says the equality test accepts
any operand and returns a boolean; but on the integer operand 5 the code
evaluates len(5), which raises TypeError-kind, so no boolean is
returned. -/
theorem C9_counterexample :
    RedisSet.eq [("s", (∅ : Finset String))] "s" (PyObj.pint 5)
      = .error .typeError ∧
    ∀ b, RedisSet.eq [("s", (∅ : Finset String))] "s" (PyObj.pint 5)
      ≠ .ok b :=
  ⟨rfl, fun _ h => Except.noConfusion h⟩

/-- Claim C9, amended: the inequality test raises TypeError-kind for
every operand that is not a set view of the same class; the equality
test returns a boolean for set views and for sized iterables such as
lists, but itself raises TypeError-kind on unsized operands such as
integers — so for a list operand the two tests disagree (one raises,
the other returns a boolean). -/
theorem C9_ne_eq_amended (st : Store) (k : String) (o : PyObj)
    (h : ∀ t, o ≠ PyObj.rset t) :
    RedisSet.ne st k o = .error .typeError ∧
    (∀ l, ∃ b, RedisSet.eq st k (.plist l) = .ok b) ∧
    (∀ n, RedisSet.eq st k (.pint n) = .error .typeError) := by
  refine ⟨?_, ?_, ?_⟩
  · cases o with
    | rset t => exact absurd rfl (h t)
    | plist l => rfl
    | pint n => rfl
  · intro l
    simp only [RedisSet.eq, pyLen, pySetOf]
    split
    · split
      · exact ⟨true, rfl⟩
      · exact ⟨false, rfl⟩
    · exact ⟨false, rfl⟩
  · intro n
    rfl

/-- Claim C9, witness for the amended theorem at the integer operand 0. -/
theorem C9_witness :
    (∀ t, PyObj.pint 0 ≠ PyObj.rset t) ∧
    RedisSet.ne [] "s" (PyObj.pint 0) = .error .typeError :=
  ⟨fun _ h => PyObj.noConfusion h,
   (C9_ne_eq_amended [] "s" (PyObj.pint 0)
     (fun _ h => PyObj.noConfusion h)).1⟩

/-- Claim C10: whenever in-place concatenation or in-place repetition
returns at all, the returned value is None (the Python body has no
return statement), not the mutated sequence view. -/
theorem C10_inplace_ops_return_none (l : List PyVal) (op : PyVal)
    (r : MethodRet × List PyVal)
    (h : RedisList.iadd l op = .ok r ∨ RedisList.imul l op = .ok r) :
    r.1 = MethodRet.none := by
  rcases h with h | h
  · unfold RedisList.iadd at h
    split at h
    · injection h with h2
      rw [← h2]
    · exact Except.noConfusion h
  · cases op with
    | int n =>
      simp only [RedisList.imul] at h
      injection h with h2
      rw [← h2]
    | str s => exact Except.noConfusion h
    | list t => exact Except.noConfusion h

/-- Claim C10, witness at the empty list and the empty-list operand. -/
theorem C10_witness :
    RedisList.iadd [] (PyVal.list []) = .ok (MethodRet.none, [PyVal.list []]) ∧
    (MethodRet.none, ([PyVal.list []] : List PyVal)).1 = MethodRet.none :=
  ⟨rfl,
   C10_inplace_ops_return_none [] (PyVal.list [])
     (MethodRet.none, [PyVal.list []]) (Or.inl rfl)⟩

end RedisDS
